import Mathlib

/-!
Verification of the `luaamath` binding adapter (`src/tools/amath/luaamath.c`),
a Lua C module exposing `amath.to_mathml`, a wrapper around the external
AsciiMath-to-MathML converter `amath_to_mathml`.

Shallow embedding notes:
* A Lua value on the stack is a `LuaValue`; a possibly-absent first argument
  is an `Option LuaValue` (`none` = no value at stack index 1).
* The external converter `amath_to_mathml` is an uninterpreted oracle
  `conv : String → Option String`; `none` models a returned NULL pointer,
  `some s` a freshly heap-allocated buffer holding `s`.
* `luaL_checkstring` follows the Lua reference semantics: it returns the
  argument when it is a string, coerces a number argument to its string
  representation (replacing the stack slot), and raises the standard
  argument error otherwise (via longjmp, i.e. it never returns in that case).
  The C-level return value is modelled as `Option String` (`none` = NULL
  pointer) by `luaL_checkstring_ptr`, so that the dead null-check in the C
  source can be stated.
* Heap traffic on the external allocator is recorded as a trace of `Event`s:
  the converter invocation, the allocation of its result buffer (when
  non-NULL) and each `free`.
-/

/-- A Lua value, as far as the adapter can observe it. -/
inductive LuaValue where
  | nil
  | boolean (b : Bool)
  | num (n : Int)
  | str (s : String)
  | table
deriving DecidableEq

/-- Lua type name of a (possibly absent) argument, as used in the standard
argument-error message of `luaL_checkstring`. -/
def luaTypeName : Option LuaValue → String
  | none => "no value"
  | some LuaValue.nil => "nil"
  | some (LuaValue.boolean _) => "boolean"
  | some (LuaValue.num _) => "number"
  | some (LuaValue.str _) => "string"
  | some LuaValue.table => "table"

/-- Errors raised through the Lua error mechanism, tagged by raise site:
`argumentError` for the standard argument check (and for the dead
"expected string argument" branch), `conversionError` for the
`luaL_error` call on a NULL converter result. -/
inductive LuaError where
  | argumentError (msg : String)
  | conversionError (msg : String)
deriving DecidableEq

/-- String representation Lua gives a number when coercing it to a string. -/
def luaNumToString (n : Int) : String := toString n

/-- Semantics of `luaL_checkstring(L, 1)`: string argument returned as is,
number argument coerced to its string representation, anything else raises
the standard argument error. -/
def luaL_checkstring (arg : Option LuaValue) : Except LuaError String :=
  match arg with
  | some (LuaValue.str s) => Except.ok s
  | some (LuaValue.num n) => Except.ok (luaNumToString n)
  | v =>
      Except.error (LuaError.argumentError
        ("bad argument 1 to to_mathml (string expected, got " ++ luaTypeName v ++ ")"))

/-- The C-level pointer returned by `luaL_checkstring`, with `none` modelling
a NULL pointer: when the call returns at all, it returns the string. -/
def luaL_checkstring_ptr (arg : Option LuaValue) : Except LuaError (Option String) :=
  (luaL_checkstring arg).map some

/-- Contents of stack slot 1 after `luaL_checkstring`: `lua_tolstring`
replaces a number argument by its string coercion and leaves every other
value untouched. -/
def checkstringSlot (arg : Option LuaValue) : Option LuaValue :=
  match arg with
  | some (LuaValue.num n) => some (LuaValue.str (luaNumToString n))
  | v => v

/-- Observable events on the external allocator during one adapter call. -/
inductive Event where
  | convCall (input : String)
  | alloc (ptr : Nat) (contents : String)
  | free (ptr : Nat)
deriving DecidableEq

/-- Result of one call of `lua_amath_to_mathml`: the outcome (values returned
to Lua, or the raised error), the allocator trace, and the contents of the
argument stack slot after the call. -/
structure CallResult where
  outcome : Except LuaError (List LuaValue)
  trace : List Event
  inputAfter : Option LuaValue

/-- Embedding of `lua_amath_to_mathml`: check/coerce the first argument,
pass it to the external converter `conv`; on NULL raise the conversion
error naming the input; otherwise push a Lua-owned copy of the buffer,
free the buffer, and return that one value. `ptr` is the identity of the
buffer the converter would allocate on success. -/
def lua_amath_to_mathml (conv : String → Option String) (ptr : Nat)
    (arg : Option LuaValue) : CallResult :=
  match luaL_checkstring_ptr arg with
  | Except.error e => { outcome := Except.error e, trace := [], inputAfter := arg }
  | Except.ok none =>
      { outcome := Except.error
          (LuaError.argumentError "amath.to_mathml: expected string argument"),
        trace := [], inputAfter := checkstringSlot arg }
  | Except.ok (some asciimath) =>
      match conv asciimath with
      | none =>
          { outcome := Except.error (LuaError.conversionError
              ("amath.to_mathml: conversion failed for input: " ++ asciimath)),
            trace := [Event.convCall asciimath],
            inputAfter := checkstringSlot arg }
      | some mathml =>
          { outcome := Except.ok [LuaValue.str mathml],
            trace := [Event.convCall asciimath, Event.alloc ptr mathml, Event.free ptr],
            inputAfter := checkstringSlot arg }

/-- Number of converter invocations recorded in a trace. -/
def countConvCalls (tr : List Event) : Nat :=
  tr.countP (fun e => match e with | Event.convCall _ => true | _ => false)

/-- Number of external allocations recorded in a trace. -/
def countAllocs (tr : List Event) : Nat :=
  tr.countP (fun e => match e with | Event.alloc _ _ => true | _ => false)

/-- Number of frees of the external buffer recorded in a trace. -/
def countFrees (tr : List Event) : Nat :=
  tr.countP (fun e => match e with | Event.free _ => true | _ => false)

/-- External buffers still allocated after replaying a trace, starting from
`live`. -/
def liveAllocsAux (live : List Nat) : List Event → List Nat
  | [] => live
  | Event.alloc p _ :: rest => liveAllocsAux (live ++ [p]) rest
  | Event.free p :: rest => liveAllocsAux (live.erase p) rest
  | Event.convCall _ :: rest => liveAllocsAux live rest

/-- External buffers still allocated at the end of a call with this trace. -/
def liveAllocs (tr : List Event) : List Nat := liveAllocsAux [] tr

/-- A sequence of adapter calls, each against the same converter, each
success allocating a distinct fresh buffer. -/
def runCalls (conv : String → Option String) : Nat → List (Option LuaValue) → List CallResult
  | _, [] => []
  | ptr, a :: rest => lua_amath_to_mathml conv ptr a :: runCalls conv (ptr + 1) rest

/-- The registered C function of the module. -/
inductive CFun where
  | to_mathml
deriving DecidableEq

/-- The `luaL_Reg` table of the module (the NULL sentinel is the list end). -/
def amathlib : List (String × CFun) := [("to_mathml", CFun.to_mathml)]

/-- Result of module initialization: the number of Lua return values and the
module table placed on the stack. -/
structure OpenResult where
  nresults : Nat
  moduleTable : List (String × CFun)
deriving DecidableEq

/-- Embedding of `luaopen_amath` under the Lua 5.2+ path of the
compatibility macro: `lua_newtable` plus `luaL_setfuncs` builds a fresh
table holding exactly the entries of `amathlib` and touches nothing else;
the globals table is passed through to witness that. -/
def luaopen_amath (globals : List (String × LuaValue)) :
    OpenResult × List (String × LuaValue) :=
  ({ nresults := 1, moduleTable := amathlib }, globals)

/-- Whether the first argument is accepted by `luaL_checkstring`
(a string, or a number coerced to one). -/
def coercibleToString : Option LuaValue → Bool
  | some (LuaValue.str _) => true
  | some (LuaValue.num _) => true
  | _ => false

theorem outcome_ptr_irrel (conv : String → Option String) (p q : Nat)
    (arg : Option LuaValue) :
    (lua_amath_to_mathml conv p arg).outcome = (lua_amath_to_mathml conv q arg).outcome := by
  match arg with
  | none => rfl
  | some LuaValue.nil => rfl
  | some (LuaValue.boolean b) => rfl
  | some LuaValue.table => rfl
  | some (LuaValue.str s) =>
      cases hc : conv s <;>
        simp [lua_amath_to_mathml, luaL_checkstring_ptr, luaL_checkstring, Except.map, hc]
  | some (LuaValue.num n) =>
      cases hc : conv (luaNumToString n) <;>
        simp [lua_amath_to_mathml, luaL_checkstring_ptr, luaL_checkstring, Except.map, hc]

theorem runCalls_length (conv : String → Option String) (p : Nat)
    (args : List (Option LuaValue)) : (runCalls conv p args).length = args.length := by
  induction args generalizing p with
  | nil => rfl
  | cons a rest ih => simp [runCalls, ih]

theorem runCalls_get_outcome (conv : String → Option String) (p : Nat)
    (args : List (Option LuaValue)) (i : Nat) (hi : i < args.length)
    (h2 : i < (runCalls conv p args).length) :
    ((runCalls conv p args).get ⟨i, h2⟩).outcome
      = (lua_amath_to_mathml conv 0 (args.get ⟨i, hi⟩)).outcome := by
  induction args generalizing p i with
  | nil => exact absurd hi (Nat.not_lt_zero i)
  | cons a rest ih =>
      match i with
      | 0 => exact outcome_ptr_irrel conv p 0 a
      | Nat.succ k =>
          exact ih (p + 1) k (Nat.lt_of_succ_lt_succ hi)
            (by rw [runCalls_length]; exact Nat.lt_of_succ_lt_succ hi)

/-- C1: for every string input on which the external converter returns a
non-null buffer, the call returns exactly one value, a Lua-owned string whose
contents equal the converter's buffer, the external allocation is freed
before the call returns (the free is in the call's trace and nothing is
live afterwards), and no error is raised. -/
theorem to_mathml_success_contract (conv : String → Option String) (ptr : Nat)
    (s m : String) (h : conv s = some m) :
    (lua_amath_to_mathml conv ptr (some (LuaValue.str s))).outcome
        = Except.ok [LuaValue.str m] ∧
    (lua_amath_to_mathml conv ptr (some (LuaValue.str s))).trace
        = [Event.convCall s, Event.alloc ptr m, Event.free ptr] ∧
    liveAllocs (lua_amath_to_mathml conv ptr (some (LuaValue.str s))).trace = [] := by
  simp [lua_amath_to_mathml, luaL_checkstring_ptr, luaL_checkstring, Except.map, h,
    liveAllocs, liveAllocsAux]

theorem to_mathml_success_contract_witness :
    (lua_amath_to_mathml (fun _ => some "<math><msup></msup></math>") 0
        (some (LuaValue.str "x^2"))).outcome
      = Except.ok [LuaValue.str "<math><msup></msup></math>"] :=
  (to_mathml_success_contract (fun _ => some "<math><msup></msup></math>") 0
    "x^2" "<math><msup></msup></math>" rfl).1

/-- C2: for every string input on which the external converter returns NULL,
the call raises a conversion error carrying no result values, and the error
message contains the original input verbatim. -/
theorem to_mathml_null_raises_conversion_error (conv : String → Option String)
    (ptr : Nat) (s : String) (h : conv s = none) :
    (lua_amath_to_mathml conv ptr (some (LuaValue.str s))).outcome
        = Except.error (LuaError.conversionError
            ("amath.to_mathml: conversion failed for input: " ++ s)) ∧
    (∃ pre post,
      "amath.to_mathml: conversion failed for input: " ++ s = pre ++ s ++ post) := by
  refine ⟨?_, "amath.to_mathml: conversion failed for input: ", "", ?_⟩
  · simp [lua_amath_to_mathml, luaL_checkstring_ptr, luaL_checkstring, Except.map, h]
  · rw [String.append_empty]

theorem to_mathml_null_raises_conversion_error_witness :
    (lua_amath_to_mathml (fun _ => none) 0 (some (LuaValue.str ""))).outcome
      = Except.error (LuaError.conversionError
          "amath.to_mathml: conversion failed for input: ") :=
  (to_mathml_null_raises_conversion_error (fun _ => none) 0 "" rfl).1

/-- C3 counterexample: calling with the number 42 does not raise an argument
error and does invoke the external converter; the argument is coerced to the
string 42 and the call proceeds as a conversion (here the converter returns
NULL, so a conversion error is raised instead). -/
theorem number_arg_not_rejected :
    (lua_amath_to_mathml (fun _ => none) 0 (some (LuaValue.num 42))).outcome
        = Except.error (LuaError.conversionError
            "amath.to_mathml: conversion failed for input: 42") ∧
    (lua_amath_to_mathml (fun _ => none) 0 (some (LuaValue.num 42))).trace
        = [Event.convCall "42"] :=
  ⟨rfl, rfl⟩

/-- C3 amended: for every call whose first argument is missing or is neither
a string nor a number, the call raises an argument error and the external
converter is never invoked (the trace is empty); a number argument is
instead coerced by Lua to its string representation and processed as that
string. -/
theorem non_string_non_number_rejected (conv : String → Option String)
    (ptr : Nat) (arg : Option LuaValue) (h : coercibleToString arg = false) :
    (∃ msg, (lua_amath_to_mathml conv ptr arg).outcome
        = Except.error (LuaError.argumentError msg)) ∧
    (lua_amath_to_mathml conv ptr arg).trace = [] := by
  match arg with
  | none => exact ⟨⟨_, rfl⟩, rfl⟩
  | some LuaValue.nil => exact ⟨⟨_, rfl⟩, rfl⟩
  | some (LuaValue.boolean b) => exact ⟨⟨_, rfl⟩, rfl⟩
  | some LuaValue.table => exact ⟨⟨_, rfl⟩, rfl⟩
  | some (LuaValue.num n) => simp [coercibleToString] at h
  | some (LuaValue.str s) => simp [coercibleToString] at h

theorem non_string_non_number_rejected_witness :
    coercibleToString (some LuaValue.nil) = false ∧
    (lua_amath_to_mathml (fun _ => none) 0 (some LuaValue.nil)).trace = [] :=
  ⟨rfl, (non_string_non_number_rejected (fun _ => none) 0 (some LuaValue.nil) rfl).2⟩

/-- C4: on every call where the converter returns a non-null buffer, the
trace holds exactly one allocation and exactly one free of that buffer, the
free follows the allocation and precedes the return (the trace is complete
at return time and nothing is live), and the caller receives only the
Lua-owned copy of the contents, never the external pointer. -/
theorem single_alloc_free_pair (conv : String → Option String) (ptr : Nat)
    (s m : String) (h : conv s = some m) :
    countAllocs (lua_amath_to_mathml conv ptr (some (LuaValue.str s))).trace = 1 ∧
    countFrees (lua_amath_to_mathml conv ptr (some (LuaValue.str s))).trace = 1 ∧
    liveAllocs (lua_amath_to_mathml conv ptr (some (LuaValue.str s))).trace = [] ∧
    (lua_amath_to_mathml conv ptr (some (LuaValue.str s))).trace
        = [Event.convCall s, Event.alloc ptr m, Event.free ptr] ∧
    (lua_amath_to_mathml conv ptr (some (LuaValue.str s))).outcome
        = Except.ok [LuaValue.str m] := by
  simp [lua_amath_to_mathml, luaL_checkstring_ptr, luaL_checkstring, Except.map, h,
    liveAllocs, liveAllocsAux, countAllocs, countFrees, List.countP, List.countP.go]

theorem single_alloc_free_pair_witness :
    countAllocs (lua_amath_to_mathml (fun _ => some "<math/>") 7
        (some (LuaValue.str "a+b"))).trace = 1 ∧
    countFrees (lua_amath_to_mathml (fun _ => some "<math/>") 7
        (some (LuaValue.str "a+b"))).trace = 1 :=
  ⟨(single_alloc_free_pair (fun _ => some "<math/>") 7 "a+b" "<math/>" rfl).1,
   (single_alloc_free_pair (fun _ => some "<math/>") 7 "a+b" "<math/>" rfl).2.1⟩

/-- C5: in any sequence of calls against the same converter, two calls whose
arguments are equal have equal observable outcomes (same returned values, or
the same error kind with the same message), regardless of their positions or
of the calls between them: the adapter threads no state between calls. -/
theorem same_input_same_outcome (conv : String → Option String)
    (args : List (Option LuaValue)) (i j : Nat)
    (hi : i < args.length) (hj : j < args.length)
    (h2i : i < (runCalls conv 0 args).length) (h2j : j < (runCalls conv 0 args).length)
    (heq : args.get ⟨i, hi⟩ = args.get ⟨j, hj⟩) :
    ((runCalls conv 0 args).get ⟨i, h2i⟩).outcome
      = ((runCalls conv 0 args).get ⟨j, h2j⟩).outcome := by
  rw [runCalls_get_outcome conv 0 args i hi h2i,
    runCalls_get_outcome conv 0 args j hj h2j, heq]

theorem same_input_same_outcome_witness :
    ((runCalls (fun _ => none) 0
        [some (LuaValue.str "a"), some LuaValue.nil, some (LuaValue.str "a")]).get
        ⟨0, by rw [runCalls_length]; exact Nat.zero_lt_succ 2⟩).outcome
      = ((runCalls (fun _ => none) 0
        [some (LuaValue.str "a"), some LuaValue.nil, some (LuaValue.str "a")]).get
        ⟨2, by rw [runCalls_length]; exact Nat.lt_succ_self 2⟩).outcome :=
  same_input_same_outcome (fun _ => none)
    [some (LuaValue.str "a"), some LuaValue.nil, some (LuaValue.str "a")]
    0 2 (Nat.zero_lt_succ 2) (Nat.lt_succ_self 2)
    (by rw [runCalls_length]; exact Nat.zero_lt_succ 2)
    (by rw [runCalls_length]; exact Nat.lt_succ_self 2) rfl

/-- C6: the caller's input string is only read, never written: for a string
argument, the argument slot after the call holds the identical string, on
the success path and on every error path (the converter is arbitrary). -/
theorem input_string_unmodified (conv : String → Option String) (ptr : Nat)
    (s : String) :
    (lua_amath_to_mathml conv ptr (some (LuaValue.str s))).inputAfter
      = some (LuaValue.str s) := by
  cases hc : conv s <;>
    simp [lua_amath_to_mathml, luaL_checkstring_ptr, luaL_checkstring, Except.map,
      checkstringSlot, hc]

/-- C7: module initialization returns exactly one value, the module table,
which holds exactly one entry, the conversion function under the name
to_mathml, and leaves the globals untouched. -/
theorem luaopen_registers_single_function (globals : List (String × LuaValue)) :
    (luaopen_amath globals).1.nresults = 1 ∧
    (luaopen_amath globals).1.moduleTable = [("to_mathml", CFun.to_mathml)] ∧
    (luaopen_amath globals).1.moduleTable.length = 1 ∧
    (luaopen_amath globals).2 = globals :=
  ⟨rfl, rfl, rfl, rfl⟩

/-- C8: conversion is all-or-nothing: on every call the external converter is
invoked at most once, and the outcome is either a raised error carrying no
result values or exactly one result value. -/
theorem conversion_all_or_nothing (conv : String → Option String) (ptr : Nat)
    (arg : Option LuaValue) :
    countConvCalls (lua_amath_to_mathml conv ptr arg).trace ≤ 1 ∧
    ((∃ e, (lua_amath_to_mathml conv ptr arg).outcome = Except.error e) ∨
     (∃ v, (lua_amath_to_mathml conv ptr arg).outcome = Except.ok [v])) := by
  match arg with
  | none => exact ⟨Nat.zero_le 1, Or.inl ⟨_, rfl⟩⟩
  | some LuaValue.nil => exact ⟨Nat.zero_le 1, Or.inl ⟨_, rfl⟩⟩
  | some (LuaValue.boolean b) => exact ⟨Nat.zero_le 1, Or.inl ⟨_, rfl⟩⟩
  | some LuaValue.table => exact ⟨Nat.zero_le 1, Or.inl ⟨_, rfl⟩⟩
  | some (LuaValue.str s) =>
      cases hc : conv s with
      | none =>
          refine ⟨?_, Or.inl ⟨LuaError.conversionError
              ("amath.to_mathml: conversion failed for input: " ++ s), ?_⟩⟩ <;>
            simp [lua_amath_to_mathml, luaL_checkstring_ptr, luaL_checkstring,
              Except.map, hc, countConvCalls, List.countP, List.countP.go]
      | some m =>
          refine ⟨?_, Or.inr ⟨LuaValue.str m, ?_⟩⟩ <;>
            simp [lua_amath_to_mathml, luaL_checkstring_ptr, luaL_checkstring,
              Except.map, hc, countConvCalls, List.countP, List.countP.go]
  | some (LuaValue.num n) =>
      cases hc : conv (luaNumToString n) with
      | none =>
          refine ⟨?_, Or.inl ⟨LuaError.conversionError
              ("amath.to_mathml: conversion failed for input: " ++ luaNumToString n), ?_⟩⟩ <;>
            simp [lua_amath_to_mathml, luaL_checkstring_ptr, luaL_checkstring,
              Except.map, hc, countConvCalls, List.countP, List.countP.go]
      | some m =>
          refine ⟨?_, Or.inr ⟨LuaValue.str m, ?_⟩⟩ <;>
            simp [lua_amath_to_mathml, luaL_checkstring_ptr, luaL_checkstring,
              Except.map, hc, countConvCalls, List.countP, List.countP.go]

/-- C9: the null check after `luaL_checkstring` is dead code: whenever
`luaL_checkstring` returns, the returned pointer is non-null, so no call can
ever raise the "expected string argument" message of that branch. -/
theorem checkstring_null_branch_unreachable (arg : Option LuaValue) :
    luaL_checkstring_ptr arg ≠ Except.ok none ∧
    ∀ (conv : String → Option String) (ptr : Nat),
      (lua_amath_to_mathml conv ptr arg).outcome
        ≠ Except.error (LuaError.argumentError
            "amath.to_mathml: expected string argument") := by
  match arg with
  | none =>
      refine ⟨by simp [luaL_checkstring_ptr, luaL_checkstring, Except.map], ?_⟩
      intro conv ptr h
      injection h with h4
      injection h4 with h5
      exact absurd h5 (by decide)
  | some LuaValue.nil =>
      refine ⟨by simp [luaL_checkstring_ptr, luaL_checkstring, Except.map], ?_⟩
      intro conv ptr h
      injection h with h4
      injection h4 with h5
      exact absurd h5 (by decide)
  | some (LuaValue.boolean b) =>
      refine ⟨by simp [luaL_checkstring_ptr, luaL_checkstring, Except.map], ?_⟩
      intro conv ptr h
      injection h with h4
      injection h4 with h5
      simp only [luaTypeName] at h5
      exact absurd h5 (by decide)
  | some LuaValue.table =>
      refine ⟨by simp [luaL_checkstring_ptr, luaL_checkstring, Except.map], ?_⟩
      intro conv ptr h
      injection h with h4
      injection h4 with h5
      exact absurd h5 (by decide)
  | some (LuaValue.str s) =>
      refine ⟨by simp [luaL_checkstring_ptr, luaL_checkstring, Except.map], ?_⟩
      intro conv ptr h
      cases hc : conv s <;>
        simp [lua_amath_to_mathml, luaL_checkstring_ptr, luaL_checkstring,
          Except.map, hc] at h
  | some (LuaValue.num n) =>
      refine ⟨by simp [luaL_checkstring_ptr, luaL_checkstring, Except.map], ?_⟩
      intro conv ptr h
      cases hc : conv (luaNumToString n) <;>
        simp [lua_amath_to_mathml, luaL_checkstring_ptr, luaL_checkstring,
          Except.map, hc] at h

/-- C10: a number argument is coerced to its string representation and the
call then behaves identically, in outcome, allocator trace and final slot
contents, to a call with that string argument. -/
theorem number_arg_coerced (conv : String → Option String) (ptr : Nat) (n : Int) :
    lua_amath_to_mathml conv ptr (some (LuaValue.num n))
      = lua_amath_to_mathml conv ptr (some (LuaValue.str (luaNumToString n))) := rfl
